import Mathlib

/-!
Verification of the resource lifecycle and binding-state model of the gpu
crate. Device-facing operations are embedded shallowly: each operation is a
Lean function from the relevant device state to a result, a new device state
and a trace of the device calls it issued, translated from the Rust sources
(src/data/buffer.rs, src/data/vao.rs, src/data/renderbuffer.rs,
src/data/textures/texture_3d.rs, src/data/textures/texture3d.rs).
-/

namespace GpuSpec

/-- Association-list store from device handles to stored values, with a
default for absent handles. Models the device-side tables keyed by object
handle (buffer data stores, vertex-array attribute tables, texture storage). -/
def lookupStore {α : Type} (d : α) : List (Nat × α) → Nat → α
  | [], _ => d
  | (k, v) :: t, h => if k = h then v else lookupStore d t h

/-- Overwrite the value stored for handle h (insert if absent). -/
def updateStore {α : Type} : List (Nat × α) → Nat → α → List (Nat × α)
  | [], h, v => [(h, v)]
  | (k, w) :: t, h, v => if k = h then (h, v) :: t else (k, w) :: updateStore t h v

theorem lookup_update_self {α : Type} (d : α) (s : List (Nat × α)) (h : Nat) (v : α) :
    lookupStore d (updateStore s h v) h = v := by
  induction s with
  | nil => simp [updateStore, lookupStore]
  | cons p t ih =>
    obtain ⟨k, w⟩ := p
    by_cases hk : k = h
    · simp [updateStore, lookupStore, hk]
    · simp [updateStore, lookupStore, hk, ih]

theorem update_update_self {α : Type} (s : List (Nat × α)) (h : Nat) (v w : α) :
    updateStore (updateStore s h v) h w = updateStore s h w := by
  induction s with
  | nil => simp [updateStore]
  | cons p t ih =>
    obtain ⟨k, u⟩ := p
    by_cases hk : k = h
    · simp [updateStore, hk]
    · simp [updateStore, hk, ih]

/-- Concatenation of the per-element byte lists of a slice: the image of the
Rust helper as_u8_slice, which reinterprets a slice of elements as the raw
byte sequence obtained by laying the elements out contiguously. -/
def bytesOf : List (List Nat) → List Nat
  | [] => []
  | e :: t => e ++ bytesOf t

/-- Regroup a raw byte sequence into consecutive elements of k bytes each:
the image of filling a vector of k-byte-sized elements from a byte slice.
A trailing group shorter than k is kept partial (the callers below always
pass a prefix whose length is an exact multiple of k). -/
def chunks (k : Nat) : List Nat → List (List Nat)
  | [] => []
  | x :: t =>
    if k = 0 then [] else (x :: t).take k :: chunks k (t.drop (k - 1))
termination_by l => l.length
decreasing_by
  simp only [List.length_drop, List.length_cons]
  omega

theorem bytesOf_length (k : Nat) :
    ∀ data : List (List Nat), (∀ e ∈ data, e.length = k) →
      (bytesOf data).length = data.length * k := by
  intro data
  induction data with
  | nil => intro _; simp [bytesOf]
  | cons e t ih =>
    intro hall
    have he : e.length = k := hall e (List.mem_cons_self e t)
    have ht : ∀ x ∈ t, x.length = k := fun x hx => hall x (List.mem_cons_of_mem e hx)
    simp [bytesOf, he, ih ht, Nat.succ_mul, Nat.add_comm]

theorem chunks_append (k : Nat) (hk : 0 < k) (e rest : List Nat) (he : e.length = k) :
    chunks k (e ++ rest) = e :: chunks k rest := by
  cases e with
  | nil => simp at he; omega
  | cons x t =>
    have hne : ¬ k = 0 := Nat.pos_iff_ne_zero.mp hk
    have ht : t.length = k - 1 := by
      simp at he; omega
    show chunks k (x :: (t ++ rest)) = (x :: t) :: chunks k rest
    rw [chunks]
    simp only [hne, if_false]
    congr 1
    · rw [show (x :: (t ++ rest)) = (x :: t) ++ rest from rfl, ← he, List.take_left]
    · rw [show k - 1 = t.length from ht.symm, List.drop_left]

theorem chunks_bytesOf (k : Nat) (hk : 0 < k) :
    ∀ data : List (List Nat), (∀ e ∈ data, e.length = k) →
      chunks k (bytesOf data) = data := by
  intro data
  induction data with
  | nil => intro _; simp [bytesOf, chunks]
  | cons e t ih =>
    intro hall
    have he : e.length = k := hall e (List.mem_cons_self e t)
    have ht : ∀ x ∈ t, x.length = k := fun x hx => hall x (List.mem_cons_of_mem e hx)
    show chunks k (e ++ bytesOf t) = e :: t
    rw [chunks_append k hk e (bytesOf t) he, ih ht]

theorem chunks_length (k : Nat) (hk : 0 < k) :
    ∀ (m : Nat) (l : List Nat), l.length = m * k → (chunks k l).length = m := by
  intro m
  induction m with
  | zero =>
    intro l hl
    have : l = [] := List.eq_nil_of_length_eq_zero (by simpa using hl)
    simp [this, chunks]
  | succ n ih =>
    intro l hl
    have hlen : l.length = n * k + k := by rw [hl, Nat.succ_mul]
    have hpos : 0 < l.length := by omega
    cases l with
    | nil => simp at hpos
    | cons x t =>
      have hne : ¬ k = 0 := Nat.pos_iff_ne_zero.mp hk
      rw [chunks]
      simp only [hne, if_false, List.length_cons]
      have hdrop : (t.drop (k - 1)).length = n * k := by
        simp only [List.length_drop]
        simp at hlen
        omega
      rw [ih (t.drop (k - 1)) hdrop]

-- ======================================================================
-- Device state shared by Buffer and VertexArrayObject operations
-- ======================================================================

/-- One configured vertex attribute slot of a vertex array object: enabled
flag together with the pointer configuration captured by the device
(component count, source buffer captured from the ARRAY BUFFER binding,
normalized flag, stride and offset). -/
structure Attrib where
  enabled : Bool
  size : Nat
  buffer : Option Nat
  normalized : Bool
  stride : Nat
  offset : Nat
deriving DecidableEq, Repr

/-- The device-default attribute configuration of an untouched slot. -/
def defaultAttrib : Attrib :=
  ⟨false, 4, none, false, 0, 0⟩

/-- Device calls issued by Buffer and VertexArrayObject operations. -/
inductive GLCall where
  | createBuffer (handle : Nat)
  | bindBuffer (handle : Option Nat)
  | bufferDataSize (n : Int)
  | bufferDataSlice (bytes : List Nat)
  | getBufferParameterSize
  | getBufferSubData (nBytes : Nat)
  | deleteBuffer (handle : Nat)
  | createVertexArray (handle : Nat)
  | bindVertexArray (handle : Option Nat)
  | enableVertexAttribArray (idx : Nat)
  | vertexAttribPointerF32 (idx : Nat) (size : Nat) (normalized : Bool) (stride offset : Nat)
  | deleteVertexArray (handle : Nat)
deriving DecidableEq, Repr

/-- Device-global state touched by Buffer and VertexArrayObject operations:
the handle counter, per-buffer byte stores, the single ARRAY BUFFER binding
point, per-vertex-array attribute tables, and the vertex array binding. -/
structure GLState where
  nextHandle : Nat
  bufStores : List (Nat × List Nat)
  arrayBuffer : Option Nat
  vaoTables : List (Nat × List (Nat × Attrib))
  boundVao : Option Nat
deriving DecidableEq, Repr

/-- Result of one embedded operation: the returned value, the device state
after the call, and the trace of device calls issued, in order. -/
structure Step (σ : Type) (κ : Type) (α : Type) where
  val : α
  gl : σ
  trace : List κ
deriving Repr

-- ======================================================================
-- Buffer (src/data/buffer.rs)
-- ======================================================================

/-- A Buffer wraps one device buffer handle (field resource). The owning
context is a borrowed reference in the source, so a Buffer cannot outlive
its context; the context plays no further part in the data path. -/
structure Buffer where
  resource : Nat
deriving DecidableEq, Repr

/-- The argument Buffer.bind passes to the device: the source binds None
when the stored handle equals the default handle, Some handle otherwise. -/
def Buffer.bindArg (b : Buffer) : Option Nat :=
  if b.resource = 0 then none else some b.resource

/-- Buffer.new: create a fresh device buffer handle. The device creates the
object with an empty data store; nothing is bound or sized. -/
def Buffer.new (g : GLState) : Step GLState GLCall Buffer :=
  let h := g.nextHandle
  ⟨⟨h⟩, ⟨h + 1, g.bufStores, g.arrayBuffer, g.vaoTables, g.boundVao⟩,
    [GLCall.createBuffer h]⟩

/-- Buffer.bind: make this buffer current on the ARRAY BUFFER binding point. -/
def Buffer.bind (b : Buffer) (g : GLState) : Step GLState GLCall Unit :=
  ⟨(), ⟨g.nextHandle, g.bufStores, b.bindArg, g.vaoTables, g.boundVao⟩,
    [GLCall.bindBuffer b.bindArg]⟩

/-- The byte store of the buffer currently bound to ARRAY BUFFER (empty when
nothing is bound). -/
def GLState.boundBytes (g : GLState) : List Nat :=
  match g.arrayBuffer with
  | none => []
  | some h => lookupStore [] g.bufStores h

/-- Replace the data store of the buffer currently bound to ARRAY BUFFER. -/
def GLState.setBoundBytes (g : GLState) (bytes : List Nat) : GLState :=
  match g.arrayBuffer with
  | none => g
  | some h =>
    ⟨g.nextHandle, updateStore g.bufStores h bytes, g.arrayBuffer, g.vaoTables, g.boundVao⟩

/-- Buffer.size: bind, then query BUFFER SIZE of the bound buffer. -/
def Buffer.size (b : Buffer) (g : GLState) : Step GLState GLCall Nat :=
  let s := b.bind g
  ⟨s.gl.boundBytes.length, s.gl, s.trace ++ [GLCall.getBufferParameterSize]⟩

/-- Buffer.set_data: bind, then upload the raw bytes of the element slice,
replacing the previous store and size. An element of the Rust type T is
modelled as its list of bytes. -/
def Buffer.set_data (b : Buffer) (data : List (List Nat)) (g : GLState) : Step GLState GLCall Unit :=
  let s := b.bind g
  let bytes := bytesOf data
  ⟨(), s.gl.setBoundBytes bytes, s.trace ++ [GLCall.bufferDataSlice bytes]⟩

/-- Buffer.data: bind, query the size, then read capacity chunks of k bytes
into a vector, where k is the byte size of the element type and
capacity is size divided by k (integer division). -/
def Buffer.data (b : Buffer) (k : Nat) (g : GLState) : Step GLState GLCall (List (List Nat)) :=
  let s := b.bind g
  let sz := Buffer.size b s.gl
  let capacity := sz.val / k
  let bytes := (sz.gl.boundBytes).take (capacity * k)
  ⟨chunks k bytes, sz.gl, s.trace ++ sz.trace ++ [GLCall.getBufferSubData (capacity * k)]⟩

/-- The value of the Rust cast (size as i32) on an unsigned size: truncate
to the low 32 bits and reinterpret them as a signed 32-bit integer. -/
def toI32 (n : Nat) : Int :=
  if n % 2 ^ 32 < 2 ^ 31 then ((n % 2 ^ 32 : Nat) : Int)
  else ((n % 2 ^ 32 : Nat) : Int) - 2 ^ 32

/-- Buffer.reallocate: bind, then size the data store with buffer_data_size,
whose size argument is the requested byte count cast to i32 (so it wraps
modulo 2 to the 32 and can come out negative). The device sizes the store to
the received value, with undefined contents (modelled as zero bytes); a
negative received size is an invalid-value error and the call has no
effect. -/
def Buffer.reallocate (b : Buffer) (n : Nat) (g : GLState) : Step GLState GLCall Unit :=
  let s := b.bind g
  let sz := toI32 n
  ⟨(), if 0 ≤ sz then s.gl.setBoundBytes (List.replicate sz.toNat 0) else s.gl,
    s.trace ++ [GLCall.bufferDataSize sz]⟩

theorem toI32_of_lt (n : Nat) (h : n < 2 ^ 31) : toI32 n = (n : Int) := by
  have h32 : n < 2 ^ 32 := lt_trans h (by norm_num)
  rw [toI32, Nat.mod_eq_of_lt h32, if_pos h]

/-- Buffer.allocate: create a buffer and, only when the requested byte count
is positive, reallocate it to that size. -/
def Buffer.allocate (g : GLState) (n : Nat) : Step GLState GLCall Buffer :=
  let s := Buffer.new g
  if 0 < n then
    let r := Buffer.reallocate s.val n s.gl
    ⟨s.val, r.gl, s.trace ++ r.trace⟩
  else s

/-- Buffer.from_data: create a buffer and immediately upload the slice. -/
def Buffer.from_data (g : GLState) (data : List (List Nat)) : Step GLState GLCall Buffer :=
  let s := Buffer.new g
  let r := Buffer.set_data s.val data s.gl
  ⟨s.val, r.gl, s.trace ++ r.trace⟩

-- ======================================================================
-- Claims C4, C5, C6, C7 (Buffer)
-- ======================================================================

/-- Claim C4: for every buffer whose current device byte size is S and every
element type of byte size k, Buffer.data returns exactly S / k (integer
division) elements - the chunks of the byte prefix of length (S / k) * k -
so any remainder of bytes not evenly divided by k is silently dropped and
no error is raised (the operation is total). -/
theorem buffer_read_truncates (g : GLState) (b : Buffer) (k : Nat)
    (hk : 0 < k) (hb : b.resource ≠ 0) :
    (Buffer.data b k g).val.length = (lookupStore [] g.bufStores b.resource).length / k ∧
    (Buffer.data b k g).val =
      chunks k ((lookupStore [] g.bufStores b.resource).take
        ((lookupStore [] g.bufStores b.resource).length / k * k)) := by
  have harg : b.bindArg = some b.resource := by simp [Buffer.bindArg, hb]
  have hle : (lookupStore [] g.bufStores b.resource).length / k * k
      ≤ (lookupStore [] g.bufStores b.resource).length := Nat.div_mul_le_self _ _
  refine ⟨?_, ?_⟩
  · simp only [Buffer.data, Buffer.size, Buffer.bind, GLState.boundBytes, harg]
    exact chunks_length k hk _ _ (by simp [List.length_take, Nat.min_eq_left hle])
  · simp only [Buffer.data, Buffer.size, Buffer.bind, GLState.boundBytes, harg]

/-- Witness for C4: a 10-byte buffer read with a 4-byte element type yields
exactly 2 elements. -/
theorem buffer_read_truncates_witness :
    (Buffer.data ⟨1⟩ 4
      ⟨2, [(1, [10, 20, 30, 40, 50, 60, 70, 80, 90, 100])], none, [], none⟩).val.length
      = 2 :=
  ((buffer_read_truncates ⟨2, [(1, [10, 20, 30, 40, 50, 60, 70, 80, 90, 100])], none, [], none⟩
    ⟨1⟩ 4 (by decide) (by decide)).1).trans (by decide)

/-- Claim C5: constructing a buffer via Buffer.from_data from a slice of N
elements (each of byte size k) and reading it back with Buffer.data at the
same element size yields exactly the original N elements, byte for byte. -/
theorem buffer_from_data_roundtrip (g : GLState) (data : List (List Nat)) (k : Nat)
    (hk : 0 < k) (hg : g.nextHandle ≠ 0) (hd : ∀ e ∈ data, e.length = k) :
    (Buffer.data (Buffer.from_data g data).val k (Buffer.from_data g data).gl).val = data := by
  have harg : (⟨g.nextHandle⟩ : Buffer).bindArg = some g.nextHandle := by
    simp [Buffer.bindArg, hg]
  have hbytes : (bytesOf data).length = data.length * k := bytesOf_length k data hd
  simp only [Buffer.from_data, Buffer.new, Buffer.set_data, Buffer.bind, Buffer.data,
    Buffer.size, GLState.setBoundBytes, GLState.boundBytes, harg]
  rw [lookup_update_self]
  rw [hbytes, Nat.mul_div_cancel _ hk, ← hbytes, List.take_length]
  exact chunks_bytesOf k hk data hd

/-- Witness for C5: round trips at the three sizes 0, 1 and 1024 named by the
claim, with single-byte elements. -/
theorem buffer_from_data_roundtrip_witness :
    (Buffer.data (Buffer.from_data ⟨1, [], none, [], none⟩ []).val 1
        (Buffer.from_data ⟨1, [], none, [], none⟩ []).gl).val = [] ∧
    (Buffer.data (Buffer.from_data ⟨1, [], none, [], none⟩ [[7]]).val 1
        (Buffer.from_data ⟨1, [], none, [], none⟩ [[7]]).gl).val = [[7]] ∧
    (Buffer.data (Buffer.from_data ⟨1, [], none, [], none⟩ (List.replicate 1024 [7])).val 1
        (Buffer.from_data ⟨1, [], none, [], none⟩ (List.replicate 1024 [7])).gl).val
      = List.replicate 1024 [7] := by
  refine ⟨?_, ?_, ?_⟩
  · exact buffer_from_data_roundtrip _ _ _ (by decide) (by decide) (by decide)
  · exact buffer_from_data_roundtrip _ _ _ (by decide) (by decide) (by decide)
  · exact buffer_from_data_roundtrip _ _ _ (by decide) (by decide)
      (fun e he => by rw [List.eq_of_mem_replicate he]; rfl)

/-- Claim C6: every device-touching buffer operation (size, set_data, data,
reallocate) re-binds the buffer on the ARRAY BUFFER binding point as its
first device call, and no operation result or store effect depends on the
binding left behind by a previous call: changing the incoming binding to any
value x changes neither the value read nor the stores written. -/
theorem buffer_ops_rebind_first (g : GLState) (b : Buffer) (n k : Nat)
    (data : List (List Nat)) (x : Option Nat) :
    (Buffer.size b g).trace.head? = some (GLCall.bindBuffer b.bindArg) ∧
    (Buffer.set_data b data g).trace.head? = some (GLCall.bindBuffer b.bindArg) ∧
    (Buffer.data b k g).trace.head? = some (GLCall.bindBuffer b.bindArg) ∧
    (Buffer.reallocate b n g).trace.head? = some (GLCall.bindBuffer b.bindArg) ∧
    (Buffer.size b ⟨g.nextHandle, g.bufStores, x, g.vaoTables, g.boundVao⟩).val
      = (Buffer.size b g).val ∧
    (Buffer.data b k ⟨g.nextHandle, g.bufStores, x, g.vaoTables, g.boundVao⟩).val
      = (Buffer.data b k g).val ∧
    (Buffer.set_data b data ⟨g.nextHandle, g.bufStores, x, g.vaoTables, g.boundVao⟩).gl.bufStores
      = (Buffer.set_data b data g).gl.bufStores ∧
    (Buffer.reallocate b n ⟨g.nextHandle, g.bufStores, x, g.vaoTables, g.boundVao⟩).gl.bufStores
      = (Buffer.reallocate b n g).gl.bufStores :=
  ⟨rfl, rfl, rfl, rfl, rfl, rfl, rfl, rfl⟩

/-- Claim C7 counterexample: the byte size travels through an i32 cast, so
allocate with byte size 2 to the 32 plus 5 leaves a 5-byte store rather than
one of exactly the requested size, and allocate with byte size 2 to the 31
passes a negative device size, which errors and leaves the store empty -
refuting the sized-to-exactly-byte-size half of the claim as stated for
every positive byte size. -/
theorem buffer_allocate_wraps_counterexample :
    (lookupStore [] (Buffer.allocate ⟨1, [], none, [], none⟩ (2 ^ 32 + 5)).gl.bufStores
        (Buffer.allocate ⟨1, [], none, [], none⟩ (2 ^ 32 + 5)).val.resource).length = 5 ∧
    (5 : Nat) ≠ 2 ^ 32 + 5 ∧
    (lookupStore [] (Buffer.allocate ⟨1, [], none, [], none⟩ (2 ^ 31)).gl.bufStores
        (Buffer.allocate ⟨1, [], none, [], none⟩ (2 ^ 31)).val.resource).length = 0 ∧
    (0 : Nat) ≠ 2 ^ 31 := by
  refine ⟨?_, by decide, ?_, by decide⟩ <;> rfl

/-- Claim C7 (amended): Buffer.allocate with byte size 0 succeeds and issues
no device sizing call (only the handle creation; sizing is deferred until
the first write), while with a positive byte size n below 2 to the 31 (the
range the i32 cast of the source preserves) it sizes the backing device
store to exactly n bytes. -/
theorem buffer_allocate_zero_defers (g : GLState) (n : Nat)
    (hg : g.nextHandle ≠ 0) (hn : 0 < n) (hn31 : n < 2 ^ 31) :
    (Buffer.allocate g 0).trace = [GLCall.createBuffer g.nextHandle] ∧
    (∀ c ∈ (Buffer.allocate g 0).trace,
        (∀ m, c ≠ GLCall.bufferDataSize m) ∧ ∀ bs, c ≠ GLCall.bufferDataSlice bs) ∧
    lookupStore [] (Buffer.allocate g n).gl.bufStores (Buffer.allocate g n).val.resource
      = List.replicate n 0 ∧
    (lookupStore [] (Buffer.allocate g n).gl.bufStores
        (Buffer.allocate g n).val.resource).length = n := by
  have harg : (⟨g.nextHandle⟩ : Buffer).bindArg = some g.nextHandle := by
    simp [Buffer.bindArg, hg]
  refine ⟨?_, ?_, ?_, ?_⟩
  · simp [Buffer.allocate, Buffer.new]
  · intro c hc
    simp [Buffer.allocate, Buffer.new] at hc
    simp [hc]
  · simp only [Buffer.allocate, Buffer.new, Buffer.reallocate, Buffer.bind,
      GLState.setBoundBytes, harg, hn, if_true, toI32_of_lt n hn31,
      Int.natCast_nonneg, Int.toNat_natCast]
    exact lookup_update_self _ _ _ _
  · simp only [Buffer.allocate, Buffer.new, Buffer.reallocate, Buffer.bind,
      GLState.setBoundBytes, harg, hn, if_true, toI32_of_lt n hn31,
      Int.natCast_nonneg, Int.toNat_natCast]
    rw [lookup_update_self]
    exact List.length_replicate _ _

/-- Witness for C7: allocating 0 bytes issues only the create call, and
allocating 5 bytes sizes the store to 5. -/
theorem buffer_allocate_zero_defers_witness :
    (Buffer.allocate ⟨1, [], none, [], none⟩ 0).trace = [GLCall.createBuffer 1] ∧
    (lookupStore [] (Buffer.allocate ⟨1, [], none, [], none⟩ 5).gl.bufStores
        (Buffer.allocate ⟨1, [], none, [], none⟩ 5).val.resource).length = 5 := by
  have h := buffer_allocate_zero_defers ⟨1, [], none, [], none⟩ 5 (by decide) (by decide)
    (by decide)
  exact ⟨h.1, h.2.2.2⟩

-- ======================================================================
-- VertexArrayObject (src/data/vao.rs)
-- ======================================================================

/-- A VertexArrayObject wraps one device vertex-array handle and the
host-side vertices counter. The source also stores a cloned strong handle
to the underlying device connection (field gl of type GLContext), which is
why its destructor can always reach the device; that handle carries no data
relevant to the operations and is left implicit here. -/
structure VertexArrayObject where
  resource : Nat
  vertices : Nat
deriving DecidableEq, Repr

/-- VertexArrayObject.new: create a fresh vertex-array handle with an empty
attribute table; the vertices counter starts at 0. -/
def VertexArrayObject.new (g : GLState) : Step GLState GLCall VertexArrayObject :=
  let h := g.nextHandle
  ⟨⟨h, 0⟩, ⟨h + 1, g.bufStores, g.arrayBuffer, updateStore g.vaoTables h [], g.boundVao⟩,
    [GLCall.createVertexArray h]⟩

/-- VertexArrayObject.bind: make this vertex array current. -/
def VertexArrayObject.bind (v : VertexArrayObject) (g : GLState) : Step GLState GLCall Unit :=
  ⟨(), ⟨g.nextHandle, g.bufStores, g.arrayBuffer, g.vaoTables, some v.resource⟩,
    [GLCall.bindVertexArray (some v.resource)]⟩

/-- Apply f to attribute slot idx of the vertex array currently bound (the
device ignores the call when no vertex array is bound). -/
def GLState.vaoUpdate (g : GLState) (idx : Nat) (f : Attrib → Attrib) : GLState :=
  match g.boundVao with
  | none => g
  | some h =>
    let table := lookupStore [] g.vaoTables h
    let a := lookupStore defaultAttrib table idx
    ⟨g.nextHandle, g.bufStores, g.arrayBuffer,
      updateStore g.vaoTables h (updateStore table idx (f a)), g.boundVao⟩

/-- VertexArrayObject.set_vertex_buffer: bind the vertex array, bind the
buffer on ARRAY BUFFER, enable attribute idx, then configure its pointer to
n 32-bit float components per vertex, not normalized, stride 0, offset 0;
the pointer captures the current ARRAY BUFFER binding as the source buffer.
The vertex array value itself is returned unchanged (the Rust method takes
mut self but writes no field). -/
def VertexArrayObject.set_vertex_buffer (v : VertexArrayObject) (b : Buffer)
    (idx n : Nat) (g : GLState) : Step GLState GLCall VertexArrayObject :=
  let s1 := v.bind g
  let s2 := b.bind s1.gl
  let g3 := s2.gl.vaoUpdate idx (fun a => ⟨true, a.size, a.buffer, a.normalized, a.stride, a.offset⟩)
  let g4 := g3.vaoUpdate idx (fun a => ⟨a.enabled, n, g3.arrayBuffer, false, 0, 0⟩)
  ⟨v, g4, s1.trace ++ s2.trace ++
    [GLCall.enableVertexAttribArray idx, GLCall.vertexAttribPointerF32 idx n false 0 0]⟩

/-- VertexArrayObject.set_vertices: record the vertex count; a pure field
write issuing no device call. -/
def VertexArrayObject.set_vertices (v : VertexArrayObject) (n : Nat) : VertexArrayObject :=
  ⟨v.resource, n⟩

/-- VertexArrayObject.get_vertices: read the recorded vertex count; a pure
field read issuing no device call. -/
def VertexArrayObject.get_vertices (v : VertexArrayObject) : Nat :=
  v.vertices

/-- VertexArrayObject Drop: the destructor deletes the vertex array through
the cloned device handle it owns, unconditionally - it consults no context
liveness information, so the delete call is issued even when the owning
device context has already been dropped. The contextAlive argument records
the liveness of the owning context at drop time; the source never reads it. -/
def VertexArrayObject.drop (v : VertexArrayObject) (contextAlive : Bool) : List GLCall :=
  [GLCall.deleteVertexArray v.resource]

-- ======================================================================
-- Claims C8 and C9 (VertexArrayObject)
-- ======================================================================

/-- Claim C8: calling set_vertex_buffer twice in a row with the same vertex
array, buffer, attribute index and component count leaves exactly the same
device state (attribute enablement, pointer configuration and bindings) and
the same vertex array value as calling it once. -/
theorem set_vertex_buffer_idempotent (g : GLState) (v : VertexArrayObject)
    (b : Buffer) (idx n : Nat) :
    (VertexArrayObject.set_vertex_buffer v b idx n
        (VertexArrayObject.set_vertex_buffer v b idx n g).gl).gl
      = (VertexArrayObject.set_vertex_buffer v b idx n g).gl ∧
    (VertexArrayObject.set_vertex_buffer v b idx n
        (VertexArrayObject.set_vertex_buffer v b idx n g).gl).val
      = (VertexArrayObject.set_vertex_buffer v b idx n g).val := by
  constructor
  · simp only [VertexArrayObject.set_vertex_buffer, VertexArrayObject.bind, Buffer.bind,
      GLState.vaoUpdate, lookup_update_self, update_update_self]
  · rfl

/-- Claim C9: get_vertices returns exactly the value passed to the most
recent set_vertices call (0 on a fresh vertex array); the count is pure
bookkeeping - it is independent of the device state and of any attached
buffer, and set_vertex_buffer never changes it. -/
theorem vao_vertex_count_bookkeeping (g : GLState) (v : VertexArrayObject)
    (b : Buffer) (idx n m : Nat) :
    (VertexArrayObject.new g).val.get_vertices = 0 ∧
    (VertexArrayObject.set_vertices v m).get_vertices = m ∧
    (VertexArrayObject.set_vertex_buffer v b idx n g).val.get_vertices
      = v.get_vertices ∧
    (VertexArrayObject.set_vertices (VertexArrayObject.set_vertex_buffer
        (VertexArrayObject.set_vertices v m) b idx n g).val n).get_vertices = n :=
  ⟨rfl, rfl, rfl, rfl⟩

-- ======================================================================
-- Renderbuffer (src/data/renderbuffer.rs) and context liveness
-- ======================================================================

/-- Device calls issued by Renderbuffer operations. -/
inductive RbCall where
  | createRenderbuffer (handle : Nat)
  | bindRenderbuffer (handle : Option Nat)
  | renderbufferStorageDepth (width height : Nat)
  | deleteRenderbuffer (handle : Nat)
deriving DecidableEq, Repr

/-- Modelled from the spec: the WeakContext type (a non-owning handle to a
Device Context) is declared outside the packaged sources; per the spec,
after the referenced Device Context is destroyed every upgrade returns
nothing, and while it is alive upgrade yields a strong reference. The
liveness observed at the moment of the call is the field alive. -/
structure WeakContext where
  alive : Bool
deriving DecidableEq, Repr

/-- Modelled from the spec: upgrade succeeds exactly when the referenced
context is still alive. -/
def WeakContext.upgrade (w : WeakContext) : Option Unit :=
  if w.alive then some () else none

/-- A Renderbuffer holds a weak reference to its owning context and one
device renderbuffer handle. -/
structure Renderbuffer where
  context : WeakContext
  resource : Nat
deriving DecidableEq, Repr

/-- Renderbuffer.default: store the default (placeholder) handle without
issuing any device call; only the weak context reference is taken. -/
def Renderbuffer.default (w : WeakContext) : Step Unit RbCall Renderbuffer :=
  ⟨⟨w, 0⟩, (), []⟩

/-- Renderbuffer.new: create a renderbuffer handle, bind it, and allocate
depth-component storage of the given dimensions. -/
def Renderbuffer.new (w : WeakContext) (handle width height : Nat) :
    Step Unit RbCall Renderbuffer :=
  ⟨⟨w, handle⟩, (),
    [RbCall.createRenderbuffer handle, RbCall.bindRenderbuffer (some handle),
     RbCall.renderbufferStorageDepth width height]⟩

/-- Renderbuffer Drop: upgrade the weak context reference and delete the
renderbuffer only when the upgrade succeeds; when the context is gone the
delete is skipped entirely. -/
def Renderbuffer.drop (r : Renderbuffer) : List RbCall :=
  match r.context.upgrade with
  | some _ => [RbCall.deleteRenderbuffer r.resource]
  | none => []

-- ======================================================================
-- Claims C1 and C10 (destruction ordering)
-- ======================================================================

/-- Claim C1 counterexample: a VertexArrayObject dropped after its owning
context has died (liveness false) still issues a device delete call - its
destructor consults no weak reference, refuting the claim that every GPU
resource skips the delete when the context is gone. -/
theorem vao_drop_dead_context_deletes :
    VertexArrayObject.drop ⟨1, 0⟩ false = [GLCall.deleteVertexArray 1] ∧
    VertexArrayObject.drop ⟨1, 0⟩ false ≠ [] := by
  exact ⟨rfl, by decide⟩

/-- Claim C1 (amended): a Renderbuffer dropped after its context died issues
no delete call, and dropped while the context is alive issues exactly one
delete call for its handle; a VertexArrayObject destructor instead issues
exactly one delete call unconditionally, whatever the context liveness. -/
theorem resource_drop_liveness (r : Renderbuffer) (v : VertexArrayObject) (a : Bool) :
    (r.context.alive = false → Renderbuffer.drop r = []) ∧
    (r.context.alive = true →
      Renderbuffer.drop r = [RbCall.deleteRenderbuffer r.resource]) ∧
    VertexArrayObject.drop v a = [GLCall.deleteVertexArray v.resource] := by
  refine ⟨?_, ?_, rfl⟩
  · intro h; simp [Renderbuffer.drop, WeakContext.upgrade, h]
  · intro h; simp [Renderbuffer.drop, WeakContext.upgrade, h]

/-- Witness for C1 (amended): a concrete renderbuffer with a dead context
drops silently, and the same renderbuffer with a live context issues exactly
the one delete call for its handle. -/
theorem resource_drop_liveness_witness :
    Renderbuffer.drop ⟨⟨false⟩, 3⟩ = [] ∧
    Renderbuffer.drop ⟨⟨true⟩, 3⟩ = [RbCall.deleteRenderbuffer 3] :=
  ⟨(resource_drop_liveness ⟨⟨false⟩, 3⟩ ⟨1, 0⟩ false).1 rfl,
   (resource_drop_liveness ⟨⟨true⟩, 3⟩ ⟨1, 0⟩ false).2.1 rfl⟩

/-- Claim C10: Renderbuffer.default issues no device resource-creation call
and stores the placeholder (default-valued) handle 0; dropping such a
default renderbuffer while its context is alive nevertheless issues a
delete call on that placeholder handle. -/
theorem renderbuffer_default_drop (w : WeakContext) :
    (Renderbuffer.default w).val.resource = 0 ∧
    (Renderbuffer.default w).trace = [] ∧
    Renderbuffer.drop (Renderbuffer.default ⟨true⟩).val
      = [RbCall.deleteRenderbuffer 0] :=
  ⟨rfl, rfl, rfl⟩

-- ======================================================================
-- Texture formats and 3D texture device state
-- ======================================================================

/-- Modelled from the spec: the ColorFormat channel layout (the Format
Descriptor channel attribute) is declared outside the packaged sources; its
derived channel count get_size is the number of color channels. -/
inductive ColorFormat where
  | R
  | RG
  | RGB
  | RGBA
deriving DecidableEq, Repr

/-- Channel count of a color layout. -/
def ColorFormat.get_size : ColorFormat → Nat
  | .R => 1
  | .RG => 2
  | .RGB => 3
  | .RGBA => 4

/-- Modelled from the spec: the component numeric kind of a Format
Descriptor, declared outside the packaged sources. -/
inductive ComponentFormat where
  | U8
  | F32
deriving DecidableEq, Repr

/-- Modelled from the spec: a Format Descriptor pairs a channel layout with
a component kind; derived device codes are pure functions of the pair and
are not needed by the claims below. -/
structure TextureFormat where
  color : ColorFormat
  component : ComponentFormat
deriving DecidableEq, Repr

/-- Device calls issued by 3D texture operations. -/
inductive TexCall where
  | genTexture (handle : Nat)
  | bindTexture3D (handle : Nat)
  | texStorage3D (width height depth : Nat)
  | texImage3D (width height depth : Nat)
  | getTexLevelWidth
  | getTexLevelHeight
  | getTexLevelDepth
  | activeTexture0
  | getTexImage
  | deleteTexture (handle : Nat)
deriving DecidableEq, Repr

/-- Device-global state touched by 3D texture operations: handle counter,
the single TEXTURE 3D binding point, and per-texture level-zero dimensions
and uploaded element data. -/
structure GLTex where
  nextHandle : Nat
  bound3d : Option Nat
  dims : List (Nat × (Nat × Nat × Nat))
  texels : List (Nat × List Nat)
deriving DecidableEq, Repr

/-- Level-zero dimensions of the texture currently bound to TEXTURE 3D
(zeroes when nothing is bound, as a level parameter query then errors and
leaves the out-parameter untouched at its initial 0). -/
def GLTex.boundDims (g : GLTex) : Nat × Nat × Nat :=
  match g.bound3d with
  | none => (0, 0, 0)
  | some h => lookupStore (0, 0, 0) g.dims h

namespace TexCached

-- Texture3D of src/data/textures/texture_3d.rs: dimensions are cached in a
-- host-side field next to the base texture object.

/-- The texture_3d.rs Texture3D: base texture (handle and format) together
with the host-side dimensions field. -/
structure Texture3D where
  id : Nat
  format : TextureFormat
  dimensions : Nat × Nat × Nat
deriving DecidableEq, Repr

/-- Texture3D.new: create the base texture with the default RGBA F32 format;
the dimensions field starts at (0,0,0). -/
def Texture3D.new (g : GLTex) : Step GLTex TexCall Texture3D :=
  let h := g.nextHandle
  ⟨⟨h, ⟨ColorFormat.RGBA, ComponentFormat.F32⟩, (0, 0, 0)⟩,
    ⟨h + 1, g.bound3d, g.dims, g.texels⟩, [TexCall.genTexture h]⟩

/-- Texture3D.dimensions getter: a pure field read - no device call is
issued and the device state is untouched. -/
def Texture3D.dimensions_op (t : Texture3D) (g : GLTex) :
    Step GLTex TexCall (Nat × Nat × Nat) :=
  ⟨t.dimensions, g, []⟩

/-- Texture3D.reallocate: update the cached dimensions and format, bind the
texture, and allocate immutable storage of the new dimensions (contents
undefined, modelled as erased). -/
def Texture3D.reallocate (t : Texture3D) (dimension : Nat × Nat × Nat)
    (format : TextureFormat) (g : GLTex) : Step GLTex TexCall Texture3D :=
  ⟨⟨t.id, format, dimension⟩,
    ⟨g.nextHandle, some t.id, updateStore g.dims t.id dimension,
      updateStore g.texels t.id []⟩,
    [TexCall.bindTexture3D t.id,
     TexCall.texStorage3D dimension.1 dimension.2.1 dimension.2.2]⟩

/-- Texture3D.set_data: update the cached dimensions and format, bind the
texture, and upload the data interpreted under the transfer format; the
device reads width * height * depth * channels(data format) elements. -/
def Texture3D.set_data (t : Texture3D) (dimension : Nat × Nat × Nat)
    (format : TextureFormat) (data : List Nat) (data_format : TextureFormat)
    (g : GLTex) : Step GLTex TexCall Texture3D :=
  let count := dimension.1 * dimension.2.1 * dimension.2.2 * data_format.color.get_size
  ⟨⟨t.id, format, dimension⟩,
    ⟨g.nextHandle, some t.id, updateStore g.dims t.id dimension,
      updateStore g.texels t.id (data.take count)⟩,
    [TexCall.bindTexture3D t.id,
     TexCall.texImage3D dimension.1 dimension.2.1 dimension.2.2]⟩

/-- Texture3D.allocate: fresh texture, then reallocate to the requested
dimensions and format. -/
def Texture3D.allocate (dimension : Nat × Nat × Nat) (format : TextureFormat)
    (g : GLTex) : Step GLTex TexCall Texture3D :=
  let s := Texture3D.new g
  let r := Texture3D.reallocate s.val dimension format s.gl
  ⟨r.val, r.gl, s.trace ++ r.trace⟩

/-- Texture3D.from_data: fresh texture, then set_data. -/
def Texture3D.from_data (dimension : Nat × Nat × Nat) (format : TextureFormat)
    (data : List Nat) (data_format : TextureFormat) (g : GLTex) :
    Step GLTex TexCall Texture3D :=
  let s := Texture3D.new g
  let r := Texture3D.set_data s.val dimension format data data_format s.gl
  ⟨r.val, r.gl, s.trace ++ r.trace⟩

/-- Texture3D.data: the source body returns an empty vector (the read-back
is commented out behind a FIXME), issuing no device call. -/
def Texture3D.data (t : Texture3D) (g : GLTex) : Step GLTex TexCall (List Nat) :=
  ⟨[], g, []⟩

/-- The dimension-and-format mutations of a cached 3D texture. -/
inductive TexOp where
  | realloc (dimension : Nat × Nat × Nat) (format : TextureFormat)
  | setData (dimension : Nat × Nat × Nat) (format : TextureFormat)
      (data : List Nat) (data_format : TextureFormat)

/-- Run a list of mutations against a texture and the device. -/
def applyTexOps (t : Texture3D) (g : GLTex) : List TexOp → Texture3D × GLTex
  | [] => (t, g)
  | TexOp.realloc dm f :: rest =>
    let s := t.reallocate dm f g
    applyTexOps s.val s.gl rest
  | TexOp.setData dm f d df :: rest =>
    let s := t.set_data dm f d df g
    applyTexOps s.val s.gl rest

/-- The dimensions passed to the most recent mutation in the list, or the
starting dimensions when the list has none. -/
def lastDims (d : Nat × Nat × Nat) : List TexOp → Nat × Nat × Nat
  | [] => d
  | TexOp.realloc dm _ :: rest => lastDims dm rest
  | TexOp.setData dm _ _ _ :: rest => lastDims dm rest

end TexCached

namespace TexQueried

-- Texture3D of src/data/textures/texture3d.rs: dimensions are re-queried
-- from the device on every getter call, against the currently bound
-- texture, without binding self first.

/-- The texture3d.rs Texture3D: handle and format only; no cached
dimensions. -/
structure Texture3D where
  id : Nat
  format : TextureFormat
deriving DecidableEq, Repr

/-- Texture3D.new: generate a texture handle; format defaults to RGBA F32. -/
def Texture3D.new (g : GLTex) : Step GLTex TexCall Texture3D :=
  let h := g.nextHandle
  ⟨⟨h, ⟨ColorFormat.RGBA, ComponentFormat.F32⟩⟩,
    ⟨h + 1, g.bound3d, g.dims, g.texels⟩, [TexCall.genTexture h]⟩

/-- Texture3D.get_width: query the level-zero width of whatever texture is
currently bound to TEXTURE 3D; self is not bound first. -/
def Texture3D.get_width (t : Texture3D) (g : GLTex) : Step GLTex TexCall Nat :=
  ⟨g.boundDims.1, g, [TexCall.getTexLevelWidth]⟩

/-- Texture3D.get_height: query the level-zero height of the bound texture. -/
def Texture3D.get_height (t : Texture3D) (g : GLTex) : Step GLTex TexCall Nat :=
  ⟨g.boundDims.2.1, g, [TexCall.getTexLevelHeight]⟩

/-- Texture3D.get_depth: query the level-zero depth of the bound texture. -/
def Texture3D.get_depth (t : Texture3D) (g : GLTex) : Step GLTex TexCall Nat :=
  ⟨g.boundDims.2.2, g, [TexCall.getTexLevelDepth]⟩

/-- Texture3D.get_dimension: the three level-parameter queries in sequence. -/
def Texture3D.get_dimension (t : Texture3D) (g : GLTex) :
    Step GLTex TexCall (Nat × Nat × Nat) :=
  let sw := t.get_width g
  let sh := t.get_height sw.gl
  let sd := t.get_depth sh.gl
  ⟨(sw.val, sh.val, sd.val), sd.gl, sw.trace ++ sh.trace ++ sd.trace⟩

/-- Texture3D.reallocate: record the format, bind self, and allocate
immutable storage of the given dimensions (contents undefined, modelled as
erased). -/
def Texture3D.reallocate (t : Texture3D) (dimension : Nat × Nat × Nat)
    (format : TextureFormat) (g : GLTex) : Step GLTex TexCall Texture3D :=
  ⟨⟨t.id, format⟩,
    ⟨g.nextHandle, some t.id, updateStore g.dims t.id dimension,
      updateStore g.texels t.id []⟩,
    [TexCall.bindTexture3D t.id,
     TexCall.texStorage3D dimension.1 dimension.2.1 dimension.2.2]⟩

/-- Texture3D.set_data: record the format, bind self, and upload the data;
the device reads width * height * depth * channels(data format) elements. -/
def Texture3D.set_data (t : Texture3D) (dimension : Nat × Nat × Nat)
    (format : TextureFormat) (data : List Nat) (data_format : TextureFormat)
    (g : GLTex) : Step GLTex TexCall Texture3D :=
  let count := dimension.1 * dimension.2.1 * dimension.2.2 * data_format.color.get_size
  ⟨⟨t.id, format⟩,
    ⟨g.nextHandle, some t.id, updateStore g.dims t.id dimension,
      updateStore g.texels t.id (data.take count)⟩,
    [TexCall.bindTexture3D t.id,
     TexCall.texImage3D dimension.1 dimension.2.1 dimension.2.2]⟩

/-- Texture3D.allocate: fresh texture, then reallocate. -/
def Texture3D.allocate (dimension : Nat × Nat × Nat) (format : TextureFormat)
    (g : GLTex) : Step GLTex TexCall Texture3D :=
  let s := Texture3D.new g
  let r := Texture3D.reallocate s.val dimension format s.gl
  ⟨r.val, r.gl, s.trace ++ r.trace⟩

/-- Texture3D.from_data: fresh texture, then set_data. -/
def Texture3D.from_data (dimension : Nat × Nat × Nat) (format : TextureFormat)
    (data : List Nat) (data_format : TextureFormat) (g : GLTex) :
    Step GLTex TexCall Texture3D :=
  let s := Texture3D.new g
  let r := Texture3D.set_data s.val dimension format data data_format s.gl
  ⟨r.val, r.gl, s.trace ++ r.trace⟩

/-- Texture3D.get_data: compute the capacity from the three level queries on
the currently bound texture times the channel count of the stored format,
then activate unit 0, bind self, and read the full image back; missing
device bytes come back as uninitialized memory (modelled as zeroes). -/
def Texture3D.get_data (t : Texture3D) (g : GLTex) : Step GLTex TexCall (List Nat) :=
  let sw := t.get_width g
  let sh := t.get_height sw.gl
  let sd := t.get_depth sh.gl
  let capacity := sw.val * sh.val * sd.val * t.format.color.get_size
  let raw := lookupStore [] sd.gl.texels t.id
  ⟨raw.take capacity ++ List.replicate (capacity - raw.length) 0,
    ⟨sd.gl.nextHandle, some t.id, sd.gl.dims, sd.gl.texels⟩,
    sw.trace ++ sh.trace ++ sd.trace ++
      [TexCall.activeTexture0, TexCall.bindTexture3D t.id, TexCall.getTexImage]⟩

end TexQueried

-- ======================================================================
-- Claims C2 and C3 (3D textures)
-- ======================================================================

/-- Claim C2 counterexample: with the texture3d.rs variant, after texture A
is allocated at (8,8,8) and texture B at (2,2,2), the dimensions getter on A
reports (2,2,2) - the dimensions of the texture left bound, not of the most
recent allocate on A - and its trace of device queries is not empty. -/
theorem tex_queried_dimensions_counterexample :
    (TexQueried.Texture3D.get_dimension
        (TexQueried.Texture3D.allocate (8, 8, 8) ⟨ColorFormat.RGBA, ComponentFormat.U8⟩
          ⟨1, none, [], []⟩).val
        (TexQueried.Texture3D.allocate (2, 2, 2) ⟨ColorFormat.RGBA, ComponentFormat.U8⟩
          (TexQueried.Texture3D.allocate (8, 8, 8) ⟨ColorFormat.RGBA, ComponentFormat.U8⟩
            ⟨1, none, [], []⟩).gl).gl).val = (2, 2, 2) ∧
    (2, 2, 2) ≠ (8, 8, 8) ∧
    (TexQueried.Texture3D.get_dimension
        (TexQueried.Texture3D.allocate (8, 8, 8) ⟨ColorFormat.RGBA, ComponentFormat.U8⟩
          ⟨1, none, [], []⟩).val
        (TexQueried.Texture3D.allocate (2, 2, 2) ⟨ColorFormat.RGBA, ComponentFormat.U8⟩
          (TexQueried.Texture3D.allocate (8, 8, 8) ⟨ColorFormat.RGBA, ComponentFormat.U8⟩
            ⟨1, none, [], []⟩).gl).gl).trace ≠ [] := by
  decide

/-- Claim C2 (amended): for the texture_3d.rs variant, the dimensions getter
reports exactly the dimensions passed to the most recent reallocate or
set_data in any mutation sequence ((0,0,0) on a fresh texture), it issues no
device call and leaves the device state untouched; the texture3d.rs variant
instead derives its getter result from device queries against the currently
bound texture. -/
theorem tex_cached_dimensions (t : TexCached.Texture3D) (g : GLTex)
    (ops : List TexCached.TexOp) :
    (TexCached.Texture3D.dimensions_op (TexCached.applyTexOps t g ops).1
        (TexCached.applyTexOps t g ops).2).val = TexCached.lastDims t.dimensions ops ∧
    (TexCached.Texture3D.dimensions_op t g).trace = [] ∧
    (TexCached.Texture3D.dimensions_op t g).gl = g ∧
    (TexCached.Texture3D.new g).val.dimensions = (0, 0, 0) := by
  refine ⟨?_, rfl, rfl, rfl⟩
  induction ops generalizing t g with
  | nil => rfl
  | cons op rest ih =>
    cases op with
    | realloc dm f => exact ih _ _
    | setData dm f d df => exact ih _ _

/-- Claim C3: the texture_3d.rs read-back is a stub. At the failing input -
from_data of a (1,1,1) RGBA F32 texture with the four uploaded components
10, 20, 30, 40 - the device store holds the uploaded data, yet data returns
the empty vector instead of a vector of length 1 * 1 * 1 * 4 equal to the
upload; the sibling texture3d.rs get_data at the same input does return the
uploaded data, as the claim states. -/
theorem tex3d_read_stub_failing_input :
    (TexCached.Texture3D.data
        (TexCached.Texture3D.from_data (1, 1, 1) ⟨ColorFormat.RGBA, ComponentFormat.F32⟩
          [10, 20, 30, 40] ⟨ColorFormat.RGBA, ComponentFormat.F32⟩ ⟨1, none, [], []⟩).val
        (TexCached.Texture3D.from_data (1, 1, 1) ⟨ColorFormat.RGBA, ComponentFormat.F32⟩
          [10, 20, 30, 40] ⟨ColorFormat.RGBA, ComponentFormat.F32⟩
          ⟨1, none, [], []⟩).gl).val = [] ∧
    lookupStore []
      (TexCached.Texture3D.from_data (1, 1, 1) ⟨ColorFormat.RGBA, ComponentFormat.F32⟩
        [10, 20, 30, 40] ⟨ColorFormat.RGBA, ComponentFormat.F32⟩ ⟨1, none, [], []⟩).gl.texels
      (TexCached.Texture3D.from_data (1, 1, 1) ⟨ColorFormat.RGBA, ComponentFormat.F32⟩
        [10, 20, 30, 40] ⟨ColorFormat.RGBA, ComponentFormat.F32⟩
        ⟨1, none, [], []⟩).val.id = [10, 20, 30, 40] ∧
    ([] : List Nat).length ≠ 1 * 1 * 1 * ColorFormat.get_size ColorFormat.RGBA ∧
    (TexQueried.Texture3D.get_data
        (TexQueried.Texture3D.from_data (1, 1, 1) ⟨ColorFormat.RGBA, ComponentFormat.F32⟩
          [10, 20, 30, 40] ⟨ColorFormat.RGBA, ComponentFormat.F32⟩ ⟨1, none, [], []⟩).val
        (TexQueried.Texture3D.from_data (1, 1, 1) ⟨ColorFormat.RGBA, ComponentFormat.F32⟩
          [10, 20, 30, 40] ⟨ColorFormat.RGBA, ComponentFormat.F32⟩
          ⟨1, none, [], []⟩).gl).val = [10, 20, 30, 40] := by
  decide

end GpuSpec
